import Mathlib

/-!
Verification of the tracecat execution core against its specification.

The development shallowly embeds three Python modules:
* `tracecat/experimental/actions/_registry.py` — the dynamic action registry
  (schema derivation, keyword-only validated invocation, duplicate-key checks);
* `tracecat/dsl/action.py` — the per-attempt action invocation controller
  (start delay, dispatch, failure classification and contextualization);
* `tracecat/workflow/models.py` — the execution-history correlator
  (`EventGroup.from_scheduled_activity`, `EventFailure.from_history_event`,
  `destructure_slugified_namespace`).

Python strings are modelled by Lean `String`; `str.split` is re-implemented
below with fuel-based structural recursion so that it evaluates inside the
kernel. Python exceptions become `Except` results; the order of raised checks
follows the source line by line. Asynchronous suspension and dispatch are
modelled as an explicit event trace emitted by the controller.
-/

namespace Tracecat

/-! ## Python string primitives -/

/-- Auxiliary worker for `pySplit`: structurally recursive on a fuel counter so
that it reduces in the kernel. `acc` holds the current chunk reversed. -/
def splitOnCharsAux (sep : List Char) : Nat → List Char → List Char → List (List Char)
  | 0, acc, rest => [acc.reverse ++ rest]
  | _ + 1, acc, [] => [acc.reverse]
  | fuel + 1, acc, c :: rest =>
      if sep.isPrefixOf (c :: rest) then
        acc.reverse :: splitOnCharsAux sep fuel [] ((c :: rest).drop sep.length)
      else
        splitOnCharsAux sep fuel (c :: acc) rest

/-- Python `s.split(sep)` for a non-empty separator `sep` (Python raises
`ValueError` on an empty separator; the sources only split on `"."` and
`"__"`). `"".split(".") = [""]`, `"a..b".split(".") = ["a", "", "b"]`. -/
def pySplit (s : String) (sep : String) : List String :=
  if sep.isEmpty then [s]
  else (splitOnCharsAux sep.data (s.data.length + 1) [] s.data).map (fun cs => ⟨cs⟩)

/-- Boolean substring test on character lists. -/
def hasSubstr (s pat : List Char) : Bool :=
  pat.isPrefixOf s ||
    match s with
    | [] => false
    | _ :: t => hasSubstr t pat

/-- Python `pat in s` (substring containment). -/
def strContainsStr (s pat : String) : Bool :=
  hasSubstr s.data pat.data

/-- Python `s.startswith(pat)`. -/
def strStartsWith (s pat : String) : Bool :=
  pat.data.isPrefixOf s.data

/-! ## Python values and the derived argument schema

The registry derives a pydantic model from the implementation's signature.
We model Python runtime values with a small closed universe that is enough to
express the validation behaviour (strict mode: no cross-type coercion). -/

inductive Value where
  | vNone
  | vBool (b : Bool)
  | vInt (n : Int)
  | vStr (s : String)
  deriving DecidableEq, Repr

inductive PyType where
  | tBool
  | tInt
  | tStr
  | tAny
  deriving DecidableEq, Repr

/-- Strict (pydantic `strict=True`) type acceptance: no coercion between
kinds; an `Any` annotation accepts every value. -/
def Value.matchesStrict : Value → PyType → Bool
  | _, .tAny => true
  | .vBool _, .tBool => true
  | .vInt _, .tInt => true
  | .vStr _, .tStr => true
  | _, _ => false

/-- One declared parameter of an action implementation's signature: name,
annotation, default (`none` means required), and an optional `Doc` annotation
string. -/
structure Param where
  name : String
  type : PyType
  default : Option Value := none
  doc : Option String := none
  deriving DecidableEq, Repr

/-- A keyword-argument mapping, ordered as supplied. -/
abbrev Kwargs := List (String × Value)

def lookupKw : Kwargs → String → Option Value
  | [], _ => none
  | (k, v) :: rest, n => if k = n then some v else lookupKw rest n

/-- An action implementation as the registry sees it: its `__name__`, its
signature, its body (a function of the bound keyword arguments), and whether
it is `callable`. -/
structure PyFunction where
  name : String
  params : List Param
  impl : Kwargs → Value
  callable : Bool := true

/-- Embeds `_generate_model_from_function`: the derived pydantic model has one
field per signature parameter, with the parameter's annotation and
default-or-required status. -/
def _generate_model_from_function (fn : PyFunction) : List Param :=
  fn.params

/-- Embeds `_get_signature_docs`: per-parameter `Doc` annotation strings. -/
def _get_signature_docs (fn : PyFunction) : List (String × String) :=
  fn.params.filterMap (fun f => f.doc.map (fun d => (f.name, d)))

/-- Pydantic `model_validate(kwargs, strict=True)` on the derived model, with
the model's default config: every declared field must be present (or have a
default) and strictly match its annotation; keys of `kwargs` that are not
declared fields are ignored (`extra` defaults to `ignore`). -/
def model_validate (fields : List Param) (kw : Kwargs) : Bool :=
  fields.all fun f =>
    match lookupKw kw f.name with
    | some v => v.matchesStrict f.type
    | none => f.default.isSome

/-- Python call binding for `fn(**kwargs)` against a plain keyword signature:
every supplied key must name a parameter, and every parameter without a
default must be supplied; otherwise the call raises `TypeError` before the
body runs. -/
def bindsKwargs (params : List Param) (kw : Kwargs) : Bool :=
  kw.all (fun p => params.any (fun f => f.name = p.1)) &&
    params.all (fun f => f.default.isSome || (lookupKw kw f.name).isSome)

/-! ## The wrapped callable -/

inductive CallError where
  | keywordArgsRequired
  | argsValidationFailed
  | typeErrorBinding
  deriving DecidableEq, Repr

/-- Outcome of one call of a wrapped action: whether the underlying
implementation body was executed, and the call's result or error. -/
structure CallResult where
  implCalled : Bool
  result : Except CallError Value

/-- Embeds the inner `_validate_args`: positional arguments raise
`ValueError` (`KeywordArgsRequired`), then the keyword set is validated
strictly against the registered model (`ArgsValidationFailed` on failure). -/
def _validate_args (args_cls : List Param) (posArgs : List Value) (kw : Kwargs) :
    Except CallError Unit :=
  if posArgs.length > 0 then .error .keywordArgsRequired
  else if model_validate args_cls kw then .ok () else .error .argsValidationFailed

/-- Embeds `wrapped_fn`: validate, pop the reserved `__role` key, then invoke
the implementation with the remaining keywords. The sync and async wrappers
in the source share this call structure. -/
def wrapped_fn (fn : PyFunction) (args_cls : List Param)
    (posArgs : List Value) (kw : Kwargs) : CallResult :=
  match _validate_args args_cls posArgs kw with
  | .error e => ⟨false, .error e⟩
  | .ok () =>
      let kw2 := kw.filter (fun p => p.1 ≠ "__role")
      if bindsKwargs fn.params kw2 then ⟨true, .ok (fn.impl kw2)⟩
      else ⟨false, .error .typeErrorBinding⟩

/-! ## The registry -/

inductive RegError where
  | duplicateKey
  | notCallable
  deriving DecidableEq, Repr

/-- Embeds `RegisteredUDF` (function-typed fields kept as functions). -/
structure RegisteredUDF where
  fn : List Value → Kwargs → CallResult
  description : String
  «namespace» : String
  version : Option String := none
  secrets : Option (List String) := none
  args_cls : List Param
  args_docs : List (String × String) := []
  metadata : List (String × String) := []

/-- The `_udf_registry` mapping, keyed by `namespace.name`. -/
abbrev Registry := List (String × RegisteredUDF)

def containsKey (reg : Registry) (k : String) : Bool :=
  reg.any (fun p => p.1 = k)

def lookupReg : Registry → String → Option RegisteredUDF
  | [], _ => none
  | (k, u) :: rest, n => if k = n then some u else lookupReg rest n

/-- Embeds `_Registry.register`: key is `f"{namespace}.{fn.__name__}"`; a
present key raises `ValueError` (`DuplicateKey`) before anything is stored; a
non-callable target raises `ValueError` (`NotCallable`); otherwise the
wrapped callable and the derived schema are stored under the key. -/
def register (reg : Registry) (description : String)
    (secrets : Option (List String)) (nspace : String) (version : Option String)
    (metadata : List (String × String)) (fn : PyFunction) : Except RegError Registry :=
  let key := nspace ++ "." ++ fn.name
  if containsKey reg key then .error .duplicateKey
  else if !fn.callable then .error .notCallable
  else
    .ok ((key,
      { fn := fun posArgs kw => wrapped_fn fn (_generate_model_from_function fn) posArgs kw,
        description := description,
        «namespace» := nspace,
        version := version,
        secrets := secrets,
        args_cls := _generate_model_from_function fn,
        args_docs := _get_signature_docs fn,
        metadata := metadata }) :: reg)

/-- The registry state after a `register` call: unchanged when the call
raises (the source raises before the single mutating assignment). -/
def applyRegister (reg : Registry) (description : String)
    (secrets : Option (List String)) (nspace : String) (version : Option String)
    (metadata : List (String × String)) (fn : PyFunction) : Registry :=
  match register reg description secrets nspace version metadata fn with
  | .ok reg' => reg'
  | .error _ => reg

/-! ## DSL data shapes used by the invocation controller

Modelled from the spec: `ActionStatement`, `RunContext`, `RunActionInput` and
`DSLTaskErrorInfo` live in `tracecat.dsl.models`, which is not among the
sources; their field lists follow the spec's data model and wire shape. -/

structure ActionStatement where
  id : Option String := none
  ref : String
  action : String
  args : Kwargs := []
  title : String := ""
  description : String := ""
  retry_policy : List (String × Value) := []
  start_delay : Rat := 0
  deriving DecidableEq, Repr

structure RunContext where
  wf_id : String := ""
  wf_exec_id : String := ""
  environment : String := ""
  deriving DecidableEq, Repr

structure RunActionInput where
  task : ActionStatement
  run_context : RunContext := {}
  deriving DecidableEq, Repr

structure DSLTaskErrorInfo where
  ref : String
  message : String
  type : String
  attempt : Nat
  deriving DecidableEq, Repr

/-- Modelled from the spec: `context_locator` (`tracecat.dsl.common`) is not
among the sources; per the spec the locator has the form
`<namespace.action>@<ref>`, yielding messages prefixed by
`[<namespace.action>@<ref>] (Attempt <n>)`. The `loc` argument carried by the
source call sites does not appear in that form. -/
def context_locator (task : ActionStatement) (_loc : String) : String :=
  task.action ++ "@" ++ task.ref

/-- Embeds `_contextualize_message`:
`f"[{context_locator(task, loc)}] (Attempt {attempt})\n\n{msg}"`. -/
def _contextualize_message (task : ActionStatement) (msg : String)
    (attempt : Nat) (loc : String := "run_action") : String :=
  "[" ++ context_locator task loc ++ "] (Attempt " ++ toString attempt ++ ")\n\n" ++ msg

/-- Temporal's `ApplicationError` as raised by the controller: message,
attached details (here always one `DSLTaskErrorInfo`), an optional error-kind
tag, and the retryability flag. `non_retryable` defaults to `false` exactly
as in the Temporal SDK constructor. -/
structure ApplicationError where
  message : String
  details : List DSLTaskErrorInfo := []
  type : Option String := none
  non_retryable : Bool := false
  deriving DecidableEq, Repr

/-- Modelled from the spec: `RegistryActionError` (`tracecat.types.exceptions`)
is not among the sources; per the spec a domain action error carries a
human-readable detail (its string form) and an explicit retryable /
non-retryable intent set by the action. -/
structure RegistryActionError where
  detail : String
  non_retryable_intent : Bool := false
  deriving DecidableEq, Repr

/-- What the dispatch to `ExecutorClient.run_action_memory_backend` can do:
return a value, or raise one of the exception shapes the controller's
`except` clauses distinguish. -/
inductive DispatchOutcome where
  | ok (v : Value)
  | raisedRegistryActionError (e : RegistryActionError)
  | raisedApplicationError (e : ApplicationError)
  | raisedOther (kind : String) (msg : String)
  deriving DecidableEq, Repr

/-- Observable steps of one controller attempt, in program order. -/
inductive RunEvent where
  | sleep (d : Rat)
  | dispatch
  deriving DecidableEq, Repr

/-- Embeds `DSLActivities.run_action_activity` as a function of the input, the
current attempt number (from `activity.info()`), and the dispatch outcome.
Returns the emitted event trace and the result: the raw value on success, or
the `ApplicationError` the controller re-raises. Branches in source order:
`RegistryActionError` (re-raised with the Temporal default `non_retryable`,
i.e. `false`), `ApplicationError` (retryability and type preserved), then any
other exception (`non_retryable := true`, message `f"{kind} occurred:\n{e}"`). -/
def DSLActivities.run_action_activity (input : RunActionInput) (attempt : Nat)
    (outcome : DispatchOutcome) : List RunEvent × Except ApplicationError Value :=
  let task := input.task
  let trace :=
    (if task.start_delay > 0 then [RunEvent.sleep task.start_delay] else [])
      ++ [RunEvent.dispatch]
  let result : Except ApplicationError Value :=
    match outcome with
    | .ok v => .ok v
    | .raisedRegistryActionError e =>
        let kind := "RegistryActionError"
        .error
          { message := _contextualize_message task e.detail attempt,
            details := [{ ref := task.ref, message := e.detail, type := kind,
                          attempt := attempt }],
            type := some kind,
            non_retryable := false }
    | .raisedApplicationError e =>
        .error
          { message := _contextualize_message task e.message attempt,
            details := [{ ref := task.ref, message := e.message,
                          type := e.type.getD "ApplicationError",
                          attempt := attempt }],
            type := e.type,
            non_retryable := e.non_retryable }
    | .raisedOther kind msg =>
        let raw_msg := kind ++ " occurred:\n" ++ msg
        .error
          { message := _contextualize_message task raw_msg attempt,
            details := [{ ref := task.ref, message := raw_msg, type := kind,
                          attempt := attempt }],
            type := some kind,
            non_retryable := true }
  (trace, result)

/-- An opaque reference into the external result store. -/
structure StoreObjectPtr where
  key : String
  deriving DecidableEq, Repr

/-- Modelled from the spec: the store backend returns a handle whose
`to_pointer()` yields an opaque, serializable reference distinct from the
underlying value (`tracecat.store.models` is not among the sources). -/
structure ActionRefHandle where
  pointer : StoreObjectPtr
  deriving DecidableEq, Repr

def ActionRefHandle.to_pointer (h : ActionRefHandle) : StoreObjectPtr :=
  h.pointer

/-- What the dispatch to `ExecutorClient.run_action_store_backend` can do. -/
inductive StoreDispatchOutcome where
  | ok (h : ActionRefHandle)
  | raised (kind : String) (msg : String)
  deriving DecidableEq, Repr

/-- Embeds `DSLActivities.run_action_with_store_activity`: on success returns
`handle.to_pointer()`; every exception is wrapped by the single
`except Exception` clause into an `ApplicationError` with the contextualized
`str(e)` as message, no type tag, and the Temporal default retryability
(`non_retryable := false`). -/
def DSLActivities.run_action_with_store_activity (input : RunActionInput)
    (attempt : Nat) (outcome : StoreDispatchOutcome) :
    List RunEvent × Except ApplicationError StoreObjectPtr :=
  let trace :=
    (if input.task.start_delay > 0 then [RunEvent.sleep input.task.start_delay] else [])
      ++ [RunEvent.dispatch]
  let result : Except ApplicationError StoreObjectPtr :=
    match outcome with
    | .ok h => .ok h.to_pointer
    | .raised kind msg =>
        .error
          { message := _contextualize_message input.task msg attempt,
            details := [{ ref := input.task.ref, message := msg, type := kind,
                          attempt := attempt }],
            type := none,
            non_retryable := false }
  (trace, result)

/-! ## Execution-history correlator (`tracecat/workflow/models.py`) -/

/-- The Temporal history event kinds the correlator distinguishes
(`temporalio.api.enums.v1.EventType` values used by the source, mirrored by
the source's own `EventHistoryType` enumeration). -/
inductive EventHistoryType where
  | workflowExecutionStarted
  | workflowExecutionCompleted
  | workflowExecutionFailed
  | activityTaskScheduled
  | activityTaskStarted
  | activityTaskCompleted
  | activityTaskFailed
  deriving DecidableEq, Repr

/-- One payload entry of a recorded activity input; `data` is the raw
JSON-encoded bytes. -/
structure Payload where
  data : String
  deriving DecidableEq, Repr

/-- The `input` sub-record of `activity_task_scheduled_event_attributes`. -/
structure ScheduledActivityInput where
  payloads : List Payload
  deriving DecidableEq, Repr

structure ActivityTaskScheduledEventAttributes where
  input : ScheduledActivityInput
  deriving DecidableEq, Repr

/-- The protobuf `Failure` sub-record carried by failure-kind events; `cause`
and `application_failure_info` are kept in their `MessageToDict` dictionary
form. -/
structure TemporalFailure where
  message : String := ""
  stack_trace : String := ""
  cause : Option (List (String × String)) := none
  application_failure_info : List (String × String) := []
  deriving DecidableEq, Repr

structure ActivityTaskFailedEventAttributes where
  failure : TemporalFailure
  deriving DecidableEq, Repr

structure WorkflowExecutionFailedEventAttributes where
  failure : TemporalFailure
  deriving DecidableEq, Repr

/-- A Temporal history event, with the attribute sub-records the correlator
reads (protobuf attribute fields are always present, defaulting when unset). -/
structure HistoryEvent where
  event_id : Nat
  event_type : EventHistoryType
  activity_task_scheduled_event_attributes : ActivityTaskScheduledEventAttributes := ⟨⟨[]⟩⟩
  activity_task_failed_event_attributes : ActivityTaskFailedEventAttributes := ⟨{}⟩
  workflow_execution_failed_event_attributes : WorkflowExecutionFailedEventAttributes := ⟨{}⟩
  deriving DecidableEq, Repr

/-- Embeds `destructure_slugified_namespace`:
`*stem, leaf = s.split(delimiter); return (".".join(stem), leaf)`. -/
def destructure_slugified_namespace (s : String) (delimiter : String := "__") :
    String × String :=
  let parts := pySplit s delimiter
  (String.intercalate "." parts.dropLast, parts.getLastD "")

/-- The exceptions the correlator operations can raise: the explicit
`ValueError` on an unsupported event kind, `IndexError` from `payloads[0]` on
an empty payload list, and a decoding failure from `orjson` / model
construction. -/
inductive DeriveError where
  | unsupportedEventKind
  | payloadIndexError
  | payloadDecodeError
  deriving DecidableEq, Repr

/-- Embeds `EventGroup` (the reconstructed association for one scheduled
step). `action_result` is absent until a later correlation pass fills it. -/
structure EventGroup where
  event_id : Nat
  udf_namespace : String
  udf_name : String
  udf_key : String
  action_id : Option String
  action_ref : String
  action_title : String
  action_description : String
  action_input : RunActionInput
  action_result : Option Value := none
  deriving DecidableEq, Repr

/-- Embeds `EventGroup.from_scheduled_activity`, parameterized by the decoder
for the recorded JSON payload (`orjson.loads` + `UDFActionInput(**data)` in
the source): rejects any event kind other than *activity task scheduled*,
decodes `...input.payloads[0].data`, splits the action key on `"."`, and
assembles the group. -/
def EventGroup.from_scheduled_activity
    (decodeInput : String → Option RunActionInput) (event : HistoryEvent) :
    Except DeriveError EventGroup :=
  if event.event_type ≠ .activityTaskScheduled then .error .unsupportedEventKind
  else
    match event.activity_task_scheduled_event_attributes.input.payloads with
    | [] => .error .payloadIndexError
    | p :: _ =>
        match decodeInput p.data with
        | none => .error .payloadDecodeError
        | some action_input =>
            let nsName := destructure_slugified_namespace action_input.task.action "."
            .ok
              { event_id := event.event_id,
                udf_namespace := nsName.1,
                udf_name := nsName.2,
                udf_key := action_input.task.action,
                action_id := action_input.task.id,
                action_ref := action_input.task.ref,
                action_title := action_input.task.title,
                action_description := action_input.task.description,
                action_input := action_input }

/-- Embeds `EventFailure`. -/
structure EventFailure where
  message : String
  stack_trace : String
  cause : Option (List (String × String)) := none
  application_failure_info : List (String × String) := []
  deriving DecidableEq, Repr

/-- Embeds `EventFailure.from_history_event`: accepts exactly the *activity
task failed* and *workflow execution failed* kinds, reading the failure
sub-record of the matching attribute block; any other kind raises
`ValueError` (`UnsupportedEventKind`). -/
def EventFailure.from_history_event (event : HistoryEvent) :
    Except DeriveError EventFailure :=
  if event.event_type = .activityTaskFailed then
    let failure := event.activity_task_failed_event_attributes.failure
    .ok
      { message := failure.message,
        stack_trace := failure.stack_trace,
        cause := failure.cause,
        application_failure_info := failure.application_failure_info }
  else if event.event_type = .workflowExecutionFailed then
    let failure := event.workflow_execution_failed_event_attributes.failure
    .ok
      { message := failure.message,
        stack_trace := failure.stack_trace,
        cause := failure.cause,
        application_failure_info := failure.application_failure_info }
  else .error .unsupportedEventKind

/-! ## Result projectors -/

/-- Projects the error of a wrapped call's result, if any. -/
def callErrorOf (r : CallResult) : Option CallError :=
  match r.result with
  | .error e => some e
  | .ok _ => none

/-- Projects the `ApplicationError` surfaced by a controller run, if any. -/
def surfacedError {α : Type} : Except ApplicationError α → Option ApplicationError
  | .error e => some e
  | .ok _ => none

/-! ## Concrete fixtures for witnesses and counterexamples -/

def addParam : Param := { name := "a", type := .tInt }

def addFn : PyFunction :=
  { name := "add1", params := [addParam],
    impl := fun kw => match lookupKw kw "a" with | some v => v | none => .vNone }

def regFn : PyFunction := { name := "ping", params := [], impl := fun _ => .vNone }

def regEntry : RegisteredUDF :=
  { fn := fun posArgs kw => wrapped_fn regFn [] posArgs kw,
    description := "first registration",
    «namespace» := "core",
    args_cls := [] }

def oneReg : Registry := [("core.ping", regEntry)]

def failTask : ActionStatement := { ref := "step1", action := "core.fail" }

def failInput : RunActionInput := { task := failTask }

def delayedInput : RunActionInput :=
  { task := { ref := "s1", action := "core.echo", start_delay := 5 } }

def undelayedInput : RunActionInput :=
  { task := { ref := "s1", action := "core.echo", start_delay := 0 } }

def slackInput : RunActionInput :=
  { task := { id := some "act-1", ref := "act1",
              action := "integrations.slack.post_message",
              title := "Post message", description := "Post a message to Slack" } }

def slackDecode : String → Option RunActionInput :=
  fun s => if s = "payload0" then some slackInput else none

def scheduledEvent : HistoryEvent :=
  { event_id := 7, event_type := .activityTaskScheduled,
    activity_task_scheduled_event_attributes := ⟨⟨[⟨"payload0"⟩]⟩⟩ }

def startedEvent : HistoryEvent :=
  { event_id := 1, event_type := .workflowExecutionStarted }

def noDecode : String → Option RunActionInput := fun _ => none

/-! ## Helper lemmas -/

theorem lookupKw_filter (Q : String → Bool) (kw : Kwargs) (n : String) (hQ : Q n = true) :
    lookupKw (kw.filter (fun p => Q p.1)) n = lookupKw kw n := by
  induction kw with
  | nil => rfl
  | cons p rest ih =>
      obtain ⟨k, v⟩ := p
      by_cases hk : k = n
      · subst hk
        simp [List.filter_cons, hQ, lookupKw]
      · rcases hQk : Q k with _ | _ <;>
          simp [List.filter_cons, hQk, lookupKw, hk, ih]

theorem model_validate_filter_declared : ∀ (fields : List Param) (Q : String → Bool),
    (∀ f ∈ fields, Q f.name = true) → ∀ kw : Kwargs,
    model_validate fields (kw.filter (fun p => Q p.1)) = model_validate fields kw
  | [], _, _, _ => rfl
  | f :: rest, Q, hQ, kw => by
      have h1 : Q f.name = true := hQ f (List.mem_cons_self f rest)
      have ih := model_validate_filter_declared rest Q
        (fun g hg => hQ g (List.mem_cons_of_mem f hg)) kw
      simp only [model_validate, List.all_cons] at ih ⊢
      rw [lookupKw_filter Q kw f.name h1, ih]

theorem model_validate_missing (fields : List Param) (kw : Kwargs) (f : Param)
    (hmem : f ∈ fields) (hreq : f.default = none)
    (habs : lookupKw kw f.name = none) :
    model_validate fields kw = false := by
  have hx : ¬ model_validate fields kw = true := by
    intro h
    unfold model_validate at h
    have := List.all_eq_true.mp h f hmem
    simp [habs, hreq] at this
  cases hmv : model_validate fields kw
  · rfl
  · exact absurd hmv hx

theorem containsKey_of_lookupReg : ∀ (reg : Registry) (k : String) (u : RegisteredUDF),
    lookupReg reg k = some u → containsKey reg k = true
  | [], _, _, h => by cases h
  | (k', u') :: rest, k, u, h => by
      unfold lookupReg at h
      by_cases hk : k' = k
      · simp [containsKey, List.any_cons, hk]
      · rw [if_neg hk] at h
        have := containsKey_of_lookupReg rest k u h
        simp only [containsKey, List.any_cons] at this ⊢
        simp [this]

/-! ## Claim theorems -/

/-- C1 (amended): for every registered action, a keyword mapping missing a
required field fails with `ArgsValidationFailed` before the implementation is
invoked; keys not declared in the derived schema are ignored by the
validation step (pydantic's default `extra` behaviour) and therefore do not
signal `ArgsValidationFailed`. -/
theorem wrapped_call_missing_required_field_fails_validation (fn : PyFunction)
    (kw : Kwargs) (f : Param) (hmem : f ∈ fn.params) (hreq : f.default = none)
    (habs : lookupKw kw f.name = none) :
    wrapped_fn fn (_generate_model_from_function fn) [] kw =
      ⟨false, .error .argsValidationFailed⟩ ∧
    ∀ kw' : Kwargs,
      model_validate (_generate_model_from_function fn)
        (kw'.filter (fun p => fn.params.any (fun g => g.name = p.1))) =
      model_validate (_generate_model_from_function fn) kw' := by
  constructor
  · have hmv : model_validate fn.params kw = false :=
      model_validate_missing _ _ f hmem hreq habs
    simp [wrapped_fn, _validate_args, _generate_model_from_function, hmv]
  · intro kw'
    have hQ : ∀ g ∈ fn.params,
        (fun n => fn.params.any (fun x => x.name = n)) g.name = true := by
      intro g hg
      simp only [List.any_eq_true]
      exact ⟨g, hg, decide_eq_true rfl⟩
    simpa [_generate_model_from_function] using
      model_validate_filter_declared fn.params
        (fun n => fn.params.any (fun x => x.name = n)) hQ kw'

/-- C1 witness: calling the registered `core.add1` action with no arguments
(missing the required field `a`) fails with `ArgsValidationFailed` and never
reaches the implementation. -/
theorem wrapped_call_missing_required_field_fails_validation_witness :
    wrapped_fn addFn (_generate_model_from_function addFn) [] [] =
      ⟨false, .error .argsValidationFailed⟩ :=
  (wrapped_call_missing_required_field_fails_validation addFn [] addParam
    (by decide) rfl rfl).1

/-- C1 counterexample: calling `core.add1` (declared fields: `a`) with the
extra undeclared field `b` does not fail with `ArgsValidationFailed` as the
claim states — validation ignores the extra key, and the call instead fails
at keyword binding with a `TypeError` (the implementation body still does not
run). -/
theorem wrapped_call_undeclared_field_passes_validation :
    callErrorOf (wrapped_fn addFn (_generate_model_from_function addFn) []
        [("a", .vInt 1), ("b", .vInt 2)]) = some .typeErrorBinding ∧
    (wrapped_fn addFn (_generate_model_from_function addFn) []
        [("a", .vInt 1), ("b", .vInt 2)]).implCalled = false ∧
    some CallError.typeErrorBinding ≠ some CallError.argsValidationFailed :=
  ⟨rfl, rfl, by decide⟩

/-- C4: registering a key that is already present fails with `DuplicateKey`,
and the registry entry stored by the first registration is untouched by the
failed attempt. -/
theorem register_duplicate_key_second_registration (reg : Registry)
    (description : String) (secrets : Option (List String)) (nspace : String)
    (version : Option String) (metadata : List (String × String))
    (fn : PyFunction) (u : RegisteredUDF)
    (h : lookupReg reg (nspace ++ "." ++ fn.name) = some u) :
    register reg description secrets nspace version metadata fn =
      .error .duplicateKey ∧
    lookupReg (applyRegister reg description secrets nspace version metadata fn)
      (nspace ++ "." ++ fn.name) = some u := by
  have hck : containsKey reg (nspace ++ "." ++ fn.name) = true :=
    containsKey_of_lookupReg reg _ u h
  have hreg : register reg description secrets nspace version metadata fn =
      .error .duplicateKey := by
    simp [register, hck]
  refine ⟨hreg, ?_⟩
  simp [applyRegister, hreg, h]

/-- C4 witness: with `core.ping` already registered, a second registration of
the same key fails with `DuplicateKey` and the stored entry is unchanged. -/
theorem register_duplicate_key_second_registration_witness :
    register oneReg "second registration" none "core" none [] regFn =
      .error .duplicateKey ∧
    lookupReg (applyRegister oneReg "second registration" none "core" none [] regFn)
      "core.ping" = some regEntry :=
  register_duplicate_key_second_registration oneReg "second registration" none
    "core" none [] regFn regEntry rfl

/-- C6: calling any registered action with one or more positional arguments
fails with `KeywordArgsRequired` before the implementation runs, whatever the
keyword arguments are. -/
theorem wrapped_call_positional_args_rejected (fn : PyFunction)
    (posArgs : List Value) (kw : Kwargs) (h : posArgs ≠ []) :
    wrapped_fn fn (_generate_model_from_function fn) posArgs kw =
      ⟨false, .error .keywordArgsRequired⟩ := by
  have hlen : posArgs.length > 0 := List.length_pos.mpr h
  simp [wrapped_fn, _validate_args, hlen]

/-- C6 witness: calling `core.add1` with the positional argument `1` — even
together with a keyword set that would validate — fails with
`KeywordArgsRequired` and the implementation is not called. -/
theorem wrapped_call_positional_args_rejected_witness :
    wrapped_fn addFn (_generate_model_from_function addFn) [.vInt 1]
      [("a", .vInt 1)] = ⟨false, .error .keywordArgsRequired⟩ :=
  wrapped_call_positional_args_rejected addFn [.vInt 1] [("a", .vInt 1)]
    (by decide)

theorem hasSubstr_self (l : List Char) : hasSubstr l l = true := by
  have h : l.isPrefixOf l = true :=
    List.isPrefixOf_iff_prefix.mpr (List.prefix_refl l)
  unfold hasSubstr
  rw [h]
  exact Bool.true_or _

theorem hasSubstr_append_left (pre pat : List Char) :
    hasSubstr (pre ++ pat) pat = true := by
  induction pre with
  | nil => simpa using hasSubstr_self pat
  | cons c t ih =>
      rw [List.cons_append]
      unfold hasSubstr
      simp [ih]

theorem strStartsWith_append (a b : String) : strStartsWith (a ++ b) a = true := by
  unfold strStartsWith
  rw [String.data_append]
  exact List.isPrefixOf_iff_prefix.mpr (List.prefix_append _ _)

theorem strContainsStr_suffix (a b pat : String) :
    strContainsStr (a ++ (b ++ pat)) pat = true := by
  unfold strContainsStr
  simp only [String.data_append]
  rw [← List.append_assoc]
  exact hasSubstr_append_left _ _

/-- The contextualized message decomposes into the locator prefix
`[<namespace.action>@<ref>] (Attempt <n>)` followed by the original text. -/
theorem contextualize_decompose (task : ActionStatement) (msg : String)
    (attempt : Nat) (loc : String) :
    _contextualize_message task msg attempt loc =
      ("[" ++ task.action ++ "@" ++ task.ref ++ "] (Attempt " ++
        toString attempt ++ ")") ++ ("\n\n" ++ msg) := by
  apply String.ext
  have hd : (")\n\n" : String).data = (")" : String).data ++ ("\n\n" : String).data :=
    rfl
  simp [_contextualize_message, context_locator, String.data_append, hd,
    List.append_assoc]

/-- C2 (amended): in the memory-backend run an exception that is neither a
domain action error nor a structured `ApplicationError` surfaces as an
always-non-retryable failure whose message is `"<kind> occurred:\n<detail>"`
contextualized with the locator prefix; the store-backend run instead wraps
every exception as a retryable failure (`non_retryable = false`) whose
message is the bare exception text contextualized, with no type tag. -/
theorem unknown_error_classification_memory_vs_store (input : RunActionInput)
    (attempt : Nat) (kind msg : String) :
    (DSLActivities.run_action_activity input attempt (.raisedOther kind msg)).2 =
      .error
        { message := _contextualize_message input.task
            (kind ++ " occurred:\n" ++ msg) attempt,
          details := [{ ref := input.task.ref,
                        message := kind ++ " occurred:\n" ++ msg,
                        type := kind, attempt := attempt }],
          type := some kind,
          non_retryable := true } ∧
    (DSLActivities.run_action_with_store_activity input attempt (.raised kind msg)).2 =
      .error
        { message := _contextualize_message input.task msg attempt,
          details := [{ ref := input.task.ref, message := msg, type := kind,
                        attempt := attempt }],
          type := none,
          non_retryable := false } :=
  ⟨rfl, rfl⟩

/-- C2 counterexample: the claim asserts the non-retryable
`"<kind> occurred:\n<detail>"` classification also holds for the
store-backend run; there, a `RuntimeError("boom2")` raised during dispatch
of `core.fail` at attempt 1 surfaces with `non_retryable = false` and a
message that does not contain `"RuntimeError occurred:"` at all. -/
theorem store_run_unknown_error_retryable_plain_message :
    (surfacedError (DSLActivities.run_action_with_store_activity failInput 1
        (.raised "RuntimeError" "boom2")).2).map ApplicationError.non_retryable =
      some false ∧
    (surfacedError (DSLActivities.run_action_with_store_activity failInput 1
        (.raised "RuntimeError" "boom2")).2).map ApplicationError.message =
      some "[core.fail@step1] (Attempt 1)\n\nboom2" ∧
    strContainsStr "[core.fail@step1] (Attempt 1)\n\nboom2"
      "RuntimeError occurred:" = false :=
  ⟨rfl, rfl, by decide⟩

/-- C3 (amended): a domain action error with detail `d` surfaces as a failure
carrying `DSLTaskErrorInfo{ref = task.ref, message = d,
type = "RegistryActionError", attempt}`, whose message is prefixed by the
locator `[<namespace.action>@<ref>] (Attempt <n>)` and contains `d` — for
`core.fail`, ref `step1`, attempt 1, detail `boom` the message contains
`"[core.fail@step1] (Attempt 1)"` and `"boom"`. The failure is raised with
the Temporal default retryability (`non_retryable = false`); the action's own
retry intent is not consulted. -/
theorem domain_action_error_contextualized (input : RunActionInput)
    (attempt : Nat) (e : RegistryActionError) :
    (DSLActivities.run_action_activity input attempt
        (.raisedRegistryActionError e)).2 =
      .error
        { message := _contextualize_message input.task e.detail attempt,
          details := [{ ref := input.task.ref, message := e.detail,
                        type := "RegistryActionError", attempt := attempt }],
          type := some "RegistryActionError",
          non_retryable := false } ∧
    strStartsWith (_contextualize_message input.task e.detail attempt)
      ("[" ++ input.task.action ++ "@" ++ input.task.ref ++ "] (Attempt " ++
        toString attempt ++ ")") = true ∧
    strContainsStr (_contextualize_message input.task e.detail attempt)
      e.detail = true ∧
    strContainsStr (_contextualize_message failTask "boom" 1)
      "[core.fail@step1] (Attempt 1)" = true ∧
    strContainsStr (_contextualize_message failTask "boom" 1) "boom" = true := by
  refine ⟨rfl, ?_, ?_, by decide, by decide⟩
  · rw [contextualize_decompose]
    exact strStartsWith_append _ _
  · rw [contextualize_decompose]
    exact strContainsStr_suffix _ _ _

/-- C3 counterexample: the claim says the surfaced failure preserves the
action's retry intent; dispatching `core.fail` at attempt 1 with a domain
error whose intent is non-retryable surfaces a failure with
`non_retryable = false` — the intent is dropped, the failure stays
retryable. -/
theorem domain_action_error_retry_intent_not_preserved :
    (surfacedError (DSLActivities.run_action_activity failInput 1
        (.raisedRegistryActionError
          { detail := "boom", non_retryable_intent := true })).2).map
      ApplicationError.non_retryable = some false ∧
    (some false : Option Bool) ≠ some true :=
  ⟨rfl, by decide⟩

/-- C5: every store-mode run that returns normally returns exactly the opaque
pointer obtained from the execution client's handle (`handle.to_pointer()`),
never the raw result payload. -/
theorem store_run_returns_pointer (input : RunActionInput) (attempt : Nat)
    (h : ActionRefHandle) :
    (DSLActivities.run_action_with_store_activity input attempt (.ok h)).2 =
      .ok h.to_pointer :=
  rfl

/-- C7: for both run operations, a positive `start_delay` suspends for that
duration strictly before the dispatch to the execution client, and a zero
`start_delay` performs no suspension at all. -/
theorem start_delay_trace (input : RunActionInput) (attempt : Nat)
    (outcome : DispatchOutcome) (storeOutcome : StoreDispatchOutcome) :
    (input.task.start_delay > 0 →
      (DSLActivities.run_action_activity input attempt outcome).1 =
        [RunEvent.sleep input.task.start_delay, RunEvent.dispatch] ∧
      (DSLActivities.run_action_with_store_activity input attempt storeOutcome).1 =
        [RunEvent.sleep input.task.start_delay, RunEvent.dispatch]) ∧
    (input.task.start_delay = 0 →
      (DSLActivities.run_action_activity input attempt outcome).1 =
        [RunEvent.dispatch] ∧
      (DSLActivities.run_action_with_store_activity input attempt storeOutcome).1 =
        [RunEvent.dispatch]) := by
  constructor
  · intro hpos
    constructor <;>
      simp [DSLActivities.run_action_activity,
        DSLActivities.run_action_with_store_activity, hpos]
  · intro hz
    constructor <;>
      simp [DSLActivities.run_action_activity,
        DSLActivities.run_action_with_store_activity, hz]

/-- C7 witness: with `start_delay = 5` both runs suspend for 5 time units
before dispatch; with `start_delay = 0` both dispatch immediately. -/
theorem start_delay_trace_witness :
    ((DSLActivities.run_action_activity delayedInput 1 (.ok .vNone)).1 =
        [RunEvent.sleep 5, RunEvent.dispatch] ∧
      (DSLActivities.run_action_with_store_activity delayedInput 1
          (.raised "E" "m")).1 = [RunEvent.sleep 5, RunEvent.dispatch]) ∧
    ((DSLActivities.run_action_activity undelayedInput 1 (.ok .vNone)).1 =
        [RunEvent.dispatch] ∧
      (DSLActivities.run_action_with_store_activity undelayedInput 1
          (.raised "E" "m")).1 = [RunEvent.dispatch]) :=
  ⟨(start_delay_trace delayedInput 1 (.ok .vNone) (.raised "E" "m")).1 (by decide),
   (start_delay_trace undelayedInput 1 (.ok .vNone) (.raised "E" "m")).2 rfl⟩

/-- C8: for every activity-scheduled event whose first recorded payload
decodes to a `RunActionInput`, `deriveEventGroup` splits the task's action
key on its namespace delimiter into namespace (everything before the last
delimiter) and name (the final segment) and assembles the `EventGroup`,
retaining the full key; `"integrations.slack.post_message"` splits into
namespace `"integrations.slack"` and name `"post_message"`. -/
theorem derive_event_group_splits_action_key
    (decodeInput : String → Option RunActionInput) (event : HistoryEvent)
    (p : Payload) (rest : List Payload) (inp : RunActionInput)
    (htype : event.event_type = .activityTaskScheduled)
    (hpay : event.activity_task_scheduled_event_attributes.input.payloads = p :: rest)
    (hdec : decodeInput p.data = some inp) :
    EventGroup.from_scheduled_activity decodeInput event =
      .ok
        { event_id := event.event_id,
          udf_namespace := (destructure_slugified_namespace inp.task.action ".").1,
          udf_name := (destructure_slugified_namespace inp.task.action ".").2,
          udf_key := inp.task.action,
          action_id := inp.task.id,
          action_ref := inp.task.ref,
          action_title := inp.task.title,
          action_description := inp.task.description,
          action_input := inp } ∧
    destructure_slugified_namespace "integrations.slack.post_message" "." =
      ("integrations.slack", "post_message") := by
  constructor
  · simp [EventGroup.from_scheduled_activity, htype, hpay, hdec]
  · decide

/-- C8 witness: a scheduled event for `integrations.slack.post_message`
yields the group with namespace `integrations.slack`, name `post_message`,
and the full key retained. -/
theorem derive_event_group_splits_action_key_witness :
    EventGroup.from_scheduled_activity slackDecode scheduledEvent =
      .ok
        { event_id := 7,
          udf_namespace := "integrations.slack",
          udf_name := "post_message",
          udf_key := "integrations.slack.post_message",
          action_id := some "act-1",
          action_ref := "act1",
          action_title := "Post message",
          action_description := "Post a message to Slack",
          action_input := slackInput } ∧
    destructure_slugified_namespace "integrations.slack.post_message" "." =
      ("integrations.slack", "post_message") :=
  derive_event_group_splits_action_key slackDecode scheduledEvent ⟨"payload0"⟩ []
    slackInput rfl rfl rfl

/-- C9: `deriveEventGroup` rejects every event whose kind is not
activity-scheduled with `UnsupportedEventKind`, and `deriveEventFailure`
rejects every event whose kind is neither activity-failed nor
workflow-execution-failed with `UnsupportedEventKind`. -/
theorem unsupported_event_kinds_rejected
    (decodeInput : String → Option RunActionInput) (event : HistoryEvent) :
    (event.event_type ≠ .activityTaskScheduled →
      EventGroup.from_scheduled_activity decodeInput event =
        .error .unsupportedEventKind) ∧
    (event.event_type ≠ .activityTaskFailed →
      event.event_type ≠ .workflowExecutionFailed →
      EventFailure.from_history_event event = .error .unsupportedEventKind) := by
  constructor
  · intro h
    simp [EventGroup.from_scheduled_activity, h]
  · intro h1 h2
    simp [EventFailure.from_history_event, h1, h2]

/-- C9 witness: a workflow-execution-started event is rejected by both
`deriveEventGroup` and `deriveEventFailure`. -/
theorem unsupported_event_kinds_rejected_witness :
    EventGroup.from_scheduled_activity noDecode startedEvent =
      .error .unsupportedEventKind ∧
    EventFailure.from_history_event startedEvent = .error .unsupportedEventKind :=
  ⟨(unsupported_event_kinds_rejected noDecode startedEvent).1 (by decide),
   (unsupported_event_kinds_rejected noDecode startedEvent).2 (by decide) (by decide)⟩

/-- C10: deriving an `EventGroup` from a scheduled event decodes only the
first payload entry (index 0); extra payload entries are silently ignored —
the result is identical to the one for the same event with only its first
payload. -/
theorem derive_event_group_ignores_extra_payloads
    (decodeInput : String → Option RunActionInput) (event : HistoryEvent)
    (p : Payload) (rest : List Payload) :
    EventGroup.from_scheduled_activity decodeInput
      { event with activity_task_scheduled_event_attributes := ⟨⟨p :: rest⟩⟩ } =
    EventGroup.from_scheduled_activity decodeInput
      { event with activity_task_scheduled_event_attributes := ⟨⟨[p]⟩⟩ } := by
  by_cases h : event.event_type ≠ EventHistoryType.activityTaskScheduled
  · simp [EventGroup.from_scheduled_activity, h]
  · simp [EventGroup.from_scheduled_activity, h]

end Tracecat
